import Mathlib

/-!
Shallow embedding of the crowdit-mcp-server repository (Python) in Lean 4,
covering the parts of the code referenced by the specification claims:

  * `src/app/core/auth.py` — the `APIKeyMiddleware` access gate;
  * `src/app/core/config.py` — the secret resolver (`get_secret_sync`,
    `update_secret_sync`), modelled as abstract store lookups/writes;
  * `src/digitalocean_tools.py` — `DigitalOceanConfig.token`,
    `do_request` (rate-limit retry), `do_paginated_request`,
    `format_droplet_summary` and the `digitalocean_list_droplets` tool;
  * `src/linear_tools.py` — `LinearConfig.api_key`, `graphql_request`
    and the `linear_get_viewer` tool;
  * `src/server.py` — `HaloPSAClient.get_access_token`, `.request`
    and the `halopsa_get_clients` tool;
  * `src/email_tools.py` — `EmailConfig.get_access_token`;
  * `src/microsoft365_tools.py` — `Microsoft365Config.get_access_token`
    (refresh-token rotation) and the `m365_auth_complete` tool;
  * `src/aws_tools.py` — `AWSConfig` credential loading, `_get_role_arn`
    and `get_session` (assumed-role session cache).

Network I/O is modelled by passing the relevant HTTP responses in as
explicit oracle arguments, together with counters of how many network
requests a code path issues; Python exceptions are modelled with
`Except String`, a `.error` value standing for an exception that
propagates out of the modelled function.
-/

/-- A JSON value, as produced by Python's `response.json()`. -/
inductive Json where
  | null
  | bool (b : Bool)
  | num (n : Int)
  | str (s : String)
  | arr (xs : List Json)
  | obj (fields : List (String × Json))

/-- Python `dict.get(key, default)` on a JSON object: the value bound to the
first occurrence of `key`, else the default.  (On a non-object the Python
code would raise `AttributeError`; the call sites modelled here only apply
it to values used as dicts, and we return the default there.) -/
def Json.getD (j : Json) (key : String) (dflt : Json) : Json :=
  match j with
  | .obj fields =>
    match fields.lookup key with
    | some v => v
    | none => dflt
  | _ => dflt

/-- Python `key in dict`. -/
def Json.hasKey (j : Json) (key : String) : Bool :=
  match j with
  | .obj fields => (fields.lookup key).isSome
  | _ => false

/-- Python truthiness of a JSON value (`bool(x)`). -/
def Json.truthy : Json → Bool
  | .null => false
  | .bool b => b
  | .num n => n != 0
  | .str s => s ≠ ""
  | .arr xs => !xs.isEmpty
  | .obj fields => !fields.isEmpty

/-- View a JSON value as a Python list (call sites that iterate a value
obtained with default `[]`). -/
def Json.asArr : Json → List Json
  | .arr xs => xs
  | _ => []

/-- View a JSON value as a Python int (call sites comparing `meta["total"]`
with a length).  Non-numeric values are mapped to 0. -/
def Json.asInt : Json → Int
  | .num n => n
  | _ => 0

/-- Python `str(x)` for the scalar JSON values interpolated into error
messages by the code. -/
def Json.toPyStr : Json → String
  | .null => "None"
  | .bool true => "True"
  | .bool false => "False"
  | .num n => toString n
  | .str s => s
  | .arr _ => "[...]"
  | .obj _ => "\x7b...\x7d"

/-- Python truthiness of an optional string (`None` and `""` are falsy),
as used by `if self._token:` / `if not self.api_key:` etc. -/
def pyTruthy : Option String → Bool
  | none => false
  | some s => s ≠ ""

/-- Python `opt or ""` for an optional string. -/
def pyOrEmpty (o : Option String) : String := o.getD ""

/- ===================================================================
   src/app/core/auth.py — APIKeyMiddleware
   =================================================================== -/

/-- `str.replace("Bearer ", "")` from `APIKeyMiddleware.dispatch`
(src/app/core/auth.py line 53), specialised to the fixed pattern:
one left-to-right scan removing each non-overlapping occurrence of
the seven characters `Bearer ` (Python `str.replace` semantics). -/
def removeBearer : List Char → List Char
  | 'B' :: 'e' :: 'a' :: 'r' :: 'e' :: 'r' :: ' ' :: rest => removeBearer rest
  | c :: cs => c :: removeBearer cs
  | [] => []

/-- String-level wrapper for `removeBearer`. -/
def removeBearerStr (s : String) : String := ⟨removeBearer s.data⟩

/-- The parts of a Starlette request read by `APIKeyMiddleware.dispatch`:
the URL path, `request.query_params.get("api_key")`,
`request.headers.get("X-API-Key")` and
`request.headers.get("Authorization")` (each `none` when absent). -/
structure Request where
  path : String
  queryApiKey : Option String
  headerApiKey : Option String
  authorization : Option String

/-- `APIKeyMiddleware.PUBLIC_PATHS` (src/app/core/auth.py line 14). -/
def PUBLIC_PATHS : List String :=
  ["/health", "/status", "/callback", "/sharepoint-callback", "/"]

/-- The provided-key expression of `dispatch` (lines 50-54):
`query_params.get("api_key") or headers.get("X-API-Key") or
headers.get("Authorization", "").replace("Bearer ", "")`,
with Python `or` skipping `None` and empty strings. -/
def providedKey (req : Request) : String :=
  if pyTruthy req.queryApiKey then pyOrEmpty req.queryApiKey
  else if pyTruthy req.headerApiKey then pyOrEmpty req.headerApiKey
  else removeBearerStr (pyOrEmpty req.authorization)

/-- Outcome of the middleware: pass the request on, or answer 401. -/
inductive Decision where
  | forward
  | unauthorized
  deriving DecidableEq, Repr

/-- `APIKeyMiddleware.dispatch` (src/app/core/auth.py lines 38-60).
`apiKey` is the middleware's key after the lazy load (`self.api_key`):
`none` when neither the environment variable nor the secret store
yielded one. -/
def dispatch (apiKey : Option String) (req : Request) : Decision :=
  if req.path ∈ PUBLIC_PATHS then .forward
  else if ¬ pyTruthy apiKey then .forward
  else if providedKey req = pyOrEmpty apiKey then .forward
  else .unauthorized

/- ===================================================================
   Secret resolution — src/digitalocean_tools.py `DigitalOceanConfig.token`
   (lines 53-69), src/linear_tools.py `LinearConfig.api_key` (lines 41-57),
   src/email_tools.py `EmailConfig.client_secret` (lines 51-67), and
   src/aws_tools.py `AWSConfig._load_credentials` (lines 62-70).
   =================================================================== -/

/-- Result of resolving one secret: the resolved value and whether the
external secret store (`get_secret_sync`) was called. -/
structure ResolveResult where
  value : String
  storeCalled : Bool
  deriving DecidableEq, Repr

/-- The resolver shared verbatim by `DigitalOceanConfig.token`,
`LinearConfig.api_key` and `EmailConfig.client_secret`:

    if self._token: return self._token
    try:
        secret = get_secret_sync(NAME)      # "Try Secret Manager first"
        if secret: cache and return secret
    except Exception: pass
    self._token = os.getenv(NAME, ""); return self._token

`cached` is the instance attribute, `store` the value `get_secret_sync`
returns (`none` on failure — it catches internally), `env` the
environment variable. -/
def secretFirstResolve (cached : Option String) (store : Option String)
    (env : Option String) : ResolveResult :=
  if pyTruthy cached then ⟨pyOrEmpty cached, false⟩
  else if pyTruthy store then ⟨pyOrEmpty store, true⟩
  else ⟨pyOrEmpty env, true⟩

/-- `DigitalOceanConfig.token` (src/digitalocean_tools.py lines 53-69). -/
def digitalOceanToken (cached store env : Option String) : ResolveResult :=
  secretFirstResolve cached store env

/-- `LinearConfig.api_key` (src/linear_tools.py lines 41-57): same body
as `DigitalOceanConfig.token` with the name `LINEAR_API_KEY`. -/
def linearApiKey (cached store env : Option String) : ResolveResult :=
  secretFirstResolve cached store env

/-- One line of `AWSConfig._load_credentials` (src/aws_tools.py 66-70):
`os.getenv(NAME, "") or get_secret_sync(NAME) or default`.
The store is consulted only when the environment value is falsy. -/
def awsResolve (env : Option String) (store : Option String)
    (dflt : String) : ResolveResult :=
  if pyTruthy (some (pyOrEmpty env)) then ⟨pyOrEmpty env, false⟩
  else if pyTruthy store then ⟨pyOrEmpty store, true⟩
  else ⟨dflt, true⟩

/- ===================================================================
   src/digitalocean_tools.py — DigitalOceanConfig
   =================================================================== -/

/-- `json.dumps(...)` as used by the tool success paths: a deterministic
rendering of a JSON value (the exact whitespace/indentation of the Python
output is not modelled; no claim concerns it). -/
def Json.dump : Json → String
  | .null => "null"
  | .bool true => "true"
  | .bool false => "false"
  | .num n => toString n
  | .str s => "\"" ++ s ++ "\""
  | .arr xs => "[" ++ String.intercalate ", " (xs.attach.map (fun x => Json.dump x.1)) ++ "]"
  | .obj fields => "\x7b" ++ String.intercalate ", "
      (fields.attach.map (fun kv => "\"" ++ kv.1.1 ++ "\": " ++ Json.dump kv.1.2)) ++ "\x7d"
decreasing_by
  · have := List.sizeOf_lt_of_mem x.2
    simp only [Json.arr.sizeOf_spec]
    omega
  · have h1 := List.sizeOf_lt_of_mem kv.2
    have h2 : sizeOf kv.1.2 < sizeOf kv.1 := by
      rcases kv.1 with ⟨a, b⟩
      simp
    simp only [Json.obj.sizeOf_spec]
    omega

/-- Python `x == "s"` where `x` came out of a JSON document. -/
def jsonEqStr (j : Json) (s : String) : Bool :=
  match j with
  | .str t => t = s
  | _ => false

/-- One HTTP response observed by `DigitalOceanConfig.do_request`:
status code, the parsed `Retry-After` header (absent defaults to 5 in the
code), the parsed `response.json()` body (`none` when the body is not
valid JSON) and the raw `response.text`. -/
structure DoResponse where
  status : Nat
  retryAfter : Option Nat
  body : Option Json
  text : String

/-- Outcome of `do_request`: the returned value or the propagated
exception message, the `asyncio.sleep` durations performed (in order),
and the number of HTTP requests issued. -/
structure DoResult where
  result : Except String Json
  sleeps : List Nat
  requests : Nat

/-- Abstraction of the message of `httpx.Response.raise_for_status`
(its exact text is produced by the httpx library, not by this repo). -/
def raiseForStatusMsg (status : Nat) : String :=
  "HTTP status error " ++ toString status

/-- The error message built by `do_request` for a 4xx/5xx response whose
body parsed as a JSON object (src/digitalocean_tools.py lines 110-120). -/
def doErrorMsg (status : Nat) (b : Json) (text : String) : String :=
  let errorId := b.getD "id" (Json.str "unknown_error")
  let errorMsg := b.getD "message" (Json.str text)
  let requestId := b.getD "request_id" (Json.str "")
  "DigitalOcean API error (" ++ toString status ++ ", " ++ errorId.toPyStr ++ "): "
    ++ errorMsg.toPyStr
    ++ (if requestId.truthy then " [request_id: " ++ requestId.toPyStr ++ "]" else "")

/-- The `for attempt in range(3)` loop of `DigitalOceanConfig.do_request`
(src/digitalocean_tools.py lines 89-129).  `responses` holds the response
each successive HTTP request would receive; `attempt` is the loop index. -/
def doRequestAux : List DoResponse → Nat → DoResult
  | [], _ => ⟨.error "no HTTP response available", [], 0⟩
  | r :: rest, attempt =>
    if r.status = 429 then
      let retryAfter := r.retryAfter.getD 5
      if attempt < 2 then
        let sub := doRequestAux rest (attempt + 1)
        ⟨sub.result, min retryAfter 30 :: sub.sleeps, sub.requests + 1⟩
      else
        ⟨.error ("Rate limited by DigitalOcean API. Retry after "
          ++ toString retryAfter ++ "s."), [], 1⟩
    else if r.status ≥ 400 then
      match r.body with
      | some (Json.obj fields) => ⟨.error (doErrorMsg r.status (Json.obj fields) r.text), [], 1⟩
      | some _ => ⟨.error "AttributeError", [], 1⟩
      | none => ⟨.error (raiseForStatusMsg r.status), [], 1⟩
    else if r.status = 204 then
      ⟨.ok (Json.obj [("status", Json.str "success")]), [], 1⟩
    else
      match r.body with
      | some b => ⟨.ok b, [], 1⟩
      | none => ⟨.error "JSONDecodeError", [], 1⟩

/-- `DigitalOceanConfig.do_request` (src/digitalocean_tools.py 75-129). -/
def do_request (responses : List DoResponse) : DoResult :=
  doRequestAux responses 0

/-- The `while page <= max_pages` loop of
`DigitalOceanConfig.do_paginated_request` (src/digitalocean_tools.py
131-162).  `oracle p` is the parsed JSON body the GET for page `p`
returns; `fuel` counts the pages still allowed (`max_pages - page + 1`).
The second component counts the GET requests issued. -/
def doPaginatedAux (oracle : Nat → Json) (resultKey : String) :
    Nat → Nat → List Json → List Json × Nat
  | 0, _, acc => (acc, 0)
  | fuel + 1, page, acc =>
    let data := oracle page
    let items := (data.getD resultKey (Json.arr [])).asArr
    let acc2 := acc ++ items
    let total := ((data.getD "meta" (Json.obj [])).getD "total" (Json.num 0)).asInt
    let next := ((data.getD "links" (Json.obj [])).getD "pages" (Json.obj [])).getD
      "next" Json.null
    if ¬ next.truthy ∨ (acc2.length : Int) ≥ total then (acc2, 1)
    else
      let r := doPaginatedAux oracle resultKey fuel (page + 1) acc2
      (r.1, r.2 + 1)

/-- `DigitalOceanConfig.do_paginated_request` (src/digitalocean_tools.py
131-162): pages are numbered from 1, at most `maxPages` of them are
fetched (source defaults: `per_page = 100`, `max_pages = 10`).
`perPage` only parameterises the request sent to the server (it is put
into the query string); the items actually returned per page are
whatever `oracle` holds. -/
def do_paginated_request (oracle : Nat → Json) (resultKey : String)
    (perPage maxPages : Nat) : List Json × Nat :=
  doPaginatedAux oracle resultKey maxPages 1 []

/-- `format_droplet_summary` (src/digitalocean_tools.py 169-197). -/
def format_droplet_summary (droplet : Json) : Json :=
  let networks := droplet.getD "networks" (Json.obj [])
  let v4 := (networks.getD "v4" (Json.arr [])).asArr
  let ips := v4.foldl (fun (acc : Json × Json) net =>
    if jsonEqStr (net.getD "type" Json.null) "public" then
      (net.getD "ip_address" (Json.str ""), acc.2)
    else if jsonEqStr (net.getD "type" Json.null) "private" then
      (acc.1, net.getD "ip_address" (Json.str ""))
    else acc) (Json.str "", Json.str "")
  Json.obj [
    ("id", droplet.getD "id" Json.null),
    ("name", droplet.getD "name" (Json.str "")),
    ("status", droplet.getD "status" (Json.str "")),
    ("region", (droplet.getD "region" (Json.obj [])).getD "slug" (Json.str "")),
    ("region_name", (droplet.getD "region" (Json.obj [])).getD "name" (Json.str "")),
    ("size", droplet.getD "size_slug" (Json.str "")),
    ("vcpus", droplet.getD "vcpus" Json.null),
    ("memory_mb", droplet.getD "memory" Json.null),
    ("disk_gb", droplet.getD "disk" Json.null),
    ("public_ipv4", ips.1),
    ("private_ipv4", ips.2),
    ("image", (droplet.getD "image" (Json.obj [])).getD "slug"
      ((droplet.getD "image" (Json.obj [])).getD "name" (Json.str ""))),
    ("tags", droplet.getD "tags" (Json.arr [])),
    ("vpc_uuid", droplet.getD "vpc_uuid" (Json.str "")),
    ("created_at", droplet.getD "created_at" (Json.str ""))
  ]

/-- What a tool invocation produced: the string returned to the agent
(the Python tools declare `-> str`) and the number of HTTP requests the
invocation issued. -/
structure ToolRun where
  output : String
  requests : Nat

/-- The `digitalocean_list_droplets` tool (src/digitalocean_tools.py
369-396).  `token` is the resolved `DigitalOceanConfig.token` value
(`is_configured` is `bool(token)`); `responses` feeds `do_request`. -/
def digitalocean_list_droplets (token : String) (responses : List DoResponse)
    (tagName : String) (perPage page : Int) : ToolRun :=
  if token = "" then
    ⟨"Error: DigitalOcean not configured. Set DIGITALOCEAN_TOKEN.", 0⟩
  else
    let r := do_request responses
    match r.result with
    | .error e => ⟨"Error listing droplets: " ++ e, r.requests⟩
    | .ok data =>
      let droplets := (data.getD "droplets" (Json.arr [])).asArr.map format_droplet_summary
      let meta := data.getD "meta" (Json.obj [])
      ⟨Json.dump (Json.obj [
        ("total", meta.getD "total" (Json.num droplets.length)),
        ("page", Json.num page),
        ("droplets", Json.arr droplets)]), r.requests⟩

/- ===================================================================
   src/linear_tools.py — LinearConfig and linear_get_viewer
   =================================================================== -/

/-- One HTTP response as seen by `LinearConfig.graphql_request` /
the token endpoints: the status code, the parsed JSON body (`none` when
the body is not valid JSON) and the raw `response.text`. -/
structure HttpReply where
  status : Nat
  body : Option Json
  text : String

/-- `LinearConfig.graphql_request` (src/linear_tools.py 63-89):
`raise_for_status`, then a GraphQL-level error check on the `errors`
key, else `result.get("data", {})`. -/
def graphql_request (resp : HttpReply) : Except String Json :=
  if resp.status ≥ 400 then .error (raiseForStatusMsg resp.status)
  else
    match resp.body with
    | none => .error "JSONDecodeError"
    | some result =>
      if result.hasKey "errors" then
        let msgs := (result.getD "errors" (Json.arr [])).asArr.map
          (fun e => (e.getD "message" (Json.str e.toPyStr)).toPyStr)
        .error ("GraphQL errors: " ++ String.intercalate "; " msgs)
      else .ok (result.getD "data" (Json.obj []))

/-- The `linear_get_viewer` tool (src/linear_tools.py 248-293).
`apiKey` is the resolved `LinearConfig.api_key` (`is_configured` is
`bool(api_key)`). -/
def linear_get_viewer (apiKey : String) (resp : HttpReply) : ToolRun :=
  if apiKey = "" then
    ⟨"Error: Linear not configured. Set LINEAR_API_KEY.", 0⟩
  else
    match graphql_request resp with
    | .error e => ⟨"Error getting Linear viewer: " ++ e, 1⟩
    | .ok data =>
      let viewer := data.getD "viewer" (Json.obj [])
      let org := viewer.getD "organization" (Json.obj [])
      ⟨Json.dump (Json.obj [
        ("user", Json.obj [
          ("id", viewer.getD "id" (Json.str "")),
          ("name", viewer.getD "name" (Json.str "")),
          ("email", viewer.getD "email" (Json.str "")),
          ("displayName", viewer.getD "displayName" (Json.str "")),
          ("active", viewer.getD "active" (Json.bool false)),
          ("admin", viewer.getD "admin" (Json.bool false)),
          ("createdAt", viewer.getD "createdAt" (Json.str ""))]),
        ("organization", Json.obj [
          ("id", org.getD "id" (Json.str "")),
          ("name", org.getD "name" (Json.str "")),
          ("urlKey", org.getD "urlKey" (Json.str ""))])]), 1⟩

/- ===================================================================
   src/server.py — HaloPSAClient and halopsa_get_clients
   =================================================================== -/

/-- Token-cache state shared in shape by `HaloPSAClient` (src/server.py
70-71) and `EmailConfig` (src/email_tools.py 46-47): the cached access
token and the computed expiry instant (seconds; `datetime` values are
modelled as integer timestamps). -/
structure TokenState where
  accessToken : Option String
  tokenExpires : Option Int
  deriving DecidableEq, Repr

/-- Result of a token-manager call: the token or the propagated
exception, the updated cache state, and the number of token-endpoint
HTTP requests issued. -/
structure TokenCallResult where
  result : Except String String
  state : TokenState
  requests : Nat

/-- The refresh path of `HaloPSAClient.get_access_token` (src/server.py
77-91): POST `/oauth/token`, `raise_for_status`, then
`data["access_token"]` and `expires_in - 60`.  The two `data[...]`
subscripts raise `KeyError` when absent, and `self._access_token` is
assigned before `expires_in` is read. -/
def haloRefresh (st : TokenState) (now : Int) (resp : HttpReply) : TokenCallResult :=
  if resp.status ≥ 400 then ⟨.error (raiseForStatusMsg resp.status), st, 1⟩
  else
    match resp.body with
    | none => ⟨.error "JSONDecodeError", st, 1⟩
    | some data =>
      if ¬ data.hasKey "access_token" then ⟨.error "KeyError: access_token", st, 1⟩
      else
        let tok := (data.getD "access_token" Json.null).toPyStr
        let st2 := { st with accessToken := some tok }
        if ¬ data.hasKey "expires_in" then ⟨.error "KeyError: expires_in", st2, 1⟩
        else
          let ttl := (data.getD "expires_in" Json.null).asInt
          ⟨.ok tok, { st2 with tokenExpires := some (now + (ttl - 60)) }, 1⟩

/-- `HaloPSAClient.get_access_token` (src/server.py 74-91): return the
cached token when `self._access_token and self._token_expires and
now < self._token_expires`, else refresh. -/
def haloGetAccessToken (st : TokenState) (now : Int) (resp : HttpReply) : TokenCallResult :=
  match st.accessToken, st.tokenExpires with
  | some tok, some exp =>
    if tok ≠ "" ∧ now < exp then ⟨.ok tok, st, 0⟩
    else haloRefresh st now resp
  | _, _ => haloRefresh st now resp

/-- Result of `HaloPSAClient.request`. -/
structure HaloRequestResult where
  result : Except String Json
  state : TokenState
  requests : Nat

/-- `HaloPSAClient.request` (src/server.py 93-107): obtain the token
(possibly refreshing), then issue the API call, `raise_for_status`,
`response.json()`.  Exceptions propagate. -/
def haloRequest (st : TokenState) (now : Int) (tokenResp apiResp : HttpReply) :
    HaloRequestResult :=
  let t := haloGetAccessToken st now tokenResp
  match t.result with
  | .error e => ⟨.error e, t.state, t.requests⟩
  | .ok _ =>
    if apiResp.status ≥ 400 then
      ⟨.error (raiseForStatusMsg apiResp.status), t.state, t.requests + 1⟩
    else
      match apiResp.body with
      | none => ⟨.error "JSONDecodeError", t.state, t.requests + 1⟩
      | some data => ⟨.ok data, t.state, t.requests + 1⟩

/-- Result of the `halopsa_get_clients` tool: on success the accounts
list; on failure the wrapped exception, which propagates out of the tool
to the MCP transport layer. -/
structure HaloToolResult where
  result : Except String (List Json)
  state : TokenState
  requests : Nat

/-- The `halopsa_get_clients` tool (src/server.py 591-609): calls
`halopsa_client.request("GET", "/crm_accounts", params=...)` and returns
`result.get("accounts", [])`; its `except` clause re-raises
`Exception("Failed to fetch HaloPSA clients: ...")` instead of
returning an error string, and there is no configuration guard (the
`limit`/`search` parameters only shape the query string and are not
modelled).  `HaloPSAClient` defines no `is_configured` attribute. -/
def halopsa_get_clients (st : TokenState) (now : Int) (tokenResp apiResp : HttpReply) :
    HaloToolResult :=
  let r := haloRequest st now tokenResp apiResp
  match r.result with
  | .ok result => ⟨.ok ((result.getD "accounts" (Json.arr [])).asArr), r.state, r.requests⟩
  | .error e => ⟨.error ("Failed to fetch HaloPSA clients: " ++ e), r.state, r.requests⟩

/- ===================================================================
   src/email_tools.py — EmailConfig.get_access_token
   =================================================================== -/

/-- The refresh path of `EmailConfig.get_access_token` (src/email_tools.py
77-98): client-credentials POST, `raise_for_status`,
`data["access_token"]` (`KeyError` when absent),
`expires_in = data.get("expires_in", 3600)`, expiry `now + expires_in - 60`. -/
def emailRefresh (st : TokenState) (now : Int) (resp : HttpReply) : TokenCallResult :=
  if resp.status ≥ 400 then ⟨.error (raiseForStatusMsg resp.status), st, 1⟩
  else
    match resp.body with
    | none => ⟨.error "JSONDecodeError", st, 1⟩
    | some data =>
      if ¬ data.hasKey "access_token" then ⟨.error "KeyError: access_token", st, 1⟩
      else
        let tok := (data.getD "access_token" Json.null).toPyStr
        let ttl := (data.getD "expires_in" (Json.num 3600)).asInt
        ⟨.ok tok, ⟨some tok, some (now + (ttl - 60))⟩, 1⟩

/-- `EmailConfig.get_access_token` (src/email_tools.py 72-98). -/
def emailGetAccessToken (st : TokenState) (now : Int) (resp : HttpReply) : TokenCallResult :=
  match st.accessToken, st.tokenExpires with
  | some tok, some exp =>
    if tok ≠ "" ∧ now < exp then ⟨.ok tok, st, 0⟩
    else emailRefresh st now resp
  | _, _ => emailRefresh st now resp

/- ===================================================================
   src/microsoft365_tools.py — Microsoft365Config
   =================================================================== -/

/-- The mutable token state of `Microsoft365Config`
(src/microsoft365_tools.py 58-60): the cached refresh token, access
token and expiry instant. -/
structure M365State where
  refreshToken : String
  accessToken : Option String
  tokenExpiry : Option Int
  deriving DecidableEq, Repr

/-- Result of `Microsoft365Config.get_access_token`: the access token or
the propagated exception, the updated state, the
`update_secret_sync(name, value)` write attempts issued (in order) and
the number of token-endpoint HTTP requests. -/
structure M365TokenResult where
  result : Except String String
  state : M365State
  writes : List (String × String)
  requests : Nat

/-- The refresh path of `Microsoft365Config.get_access_token`
(src/microsoft365_tools.py 72-98): refresh-token POST,
`raise_for_status`, `data["access_token"]`; then, if the response holds
a `refresh_token` different from the cached one, replace it and write it
back to the secret store; expiry `now + data.get("expires_in", 3600) - 60`. -/
def m365Refresh (st : M365State) (now : Int) (resp : HttpReply) : M365TokenResult :=
  if resp.status ≥ 400 then ⟨.error (raiseForStatusMsg resp.status), st, [], 1⟩
  else
    match resp.body with
    | none => ⟨.error "JSONDecodeError", st, [], 1⟩
    | some data =>
      if ¬ data.hasKey "access_token" then ⟨.error "KeyError: access_token", st, [], 1⟩
      else
        let tok := (data.getD "access_token" Json.null).toPyStr
        let st2 := { st with accessToken := some tok }
        let rotated :=
          if data.hasKey "refresh_token" then
            let newRefresh := (data.getD "refresh_token" Json.null).toPyStr
            if newRefresh ≠ st.refreshToken then
              ({ st2 with refreshToken := newRefresh },
               [("M365_REFRESH_TOKEN", newRefresh)])
            else (st2, ([] : List (String × String)))
          else (st2, [])
        let ttl := (data.getD "expires_in" (Json.num 3600)).asInt
        ⟨.ok tok, { rotated.1 with tokenExpiry := some (now + (ttl - 60)) }, rotated.2, 1⟩

/-- `Microsoft365Config.get_access_token` (src/microsoft365_tools.py
66-98). -/
def m365GetAccessToken (st : M365State) (now : Int) (resp : HttpReply) : M365TokenResult :=
  match st.accessToken, st.tokenExpiry with
  | some tok, some exp =>
    if tok ≠ "" ∧ now < exp then ⟨.ok tok, st, [], 0⟩
    else m365Refresh st now resp
  | _, _ => m365Refresh st now resp

/-- The credential fields of `Microsoft365Config`
(src/microsoft365_tools.py 53-58). -/
structure M365Cfg where
  clientId : String
  clientSecret : String
  tenantId : String
  refreshToken : String
  deriving DecidableEq, Repr

/-- `Microsoft365Config.is_configured` (src/microsoft365_tools.py 62-64):
all of client id, client secret, tenant id and refresh token are
non-empty. -/
def M365Cfg.isConfigured (c : M365Cfg) : Bool :=
  c.clientId ≠ "" && c.clientSecret ≠ "" && c.tenantId ≠ "" && c.refreshToken ≠ ""

/-- Result of the `m365_auth_complete` tool: the returned string, the
final token state, the secret-store writes attempted and the number of
network requests issued. -/
structure M365AuthRun where
  output : String
  state : M365State
  writes : List (String × String)
  requests : Nat

/-- The `m365_auth_complete` tool (src/microsoft365_tools.py 192-260).
It guards only on client id / client secret / tenant id — not on
`is_configured` — and then exchanges the authorization code at the token
endpoint (`tokenResp`), stores the returned tokens on the config, writes
the refresh token to the secret store when non-empty (`storeWriteOk` is
the store's success), and attempts a `/me` profile lookup through
`_graph_request` (`innerTokenResp` feeds the nested `get_access_token`,
`profileResp` the Graph call); profile failures are swallowed. -/
def m365_auth_complete (cfg : M365Cfg) (now : Int) (storeWriteOk : Bool)
    (tokenResp innerTokenResp profileResp : HttpReply) : M365AuthRun :=
  let st0 : M365State := ⟨cfg.refreshToken, none, none⟩
  if ¬ (cfg.clientId ≠ "" ∧ cfg.clientSecret ≠ "" ∧ cfg.tenantId ≠ "") then
    ⟨"Error: M365 credentials not configured.", st0, [], 0⟩
  else if tokenResp.status ≥ 400 then
    ⟨"Error: " ++ tokenResp.text, st0, [], 1⟩
  else
    match tokenResp.body with
    | none => ⟨"Error: JSONDecodeError", st0, [], 1⟩
    | some tokens =>
      if ¬ tokens.hasKey "access_token" then
        ⟨"Error: KeyError: access_token", st0, [], 1⟩
      else
        let accessTok := (tokens.getD "access_token" Json.null).toPyStr
        let refreshTok := (tokens.getD "refresh_token" (Json.str "")).toPyStr
        let ttl := (tokens.getD "expires_in" (Json.num 3600)).asInt
        let st1 : M365State := ⟨refreshTok, some accessTok, some (now + (ttl - 60))⟩
        let saved := refreshTok ≠ "" && storeWriteOk
        let writes1 := if refreshTok ≠ "" then [("M365_REFRESH_TOKEN", refreshTok)] else []
        let inner := m365GetAccessToken st1 now innerTokenResp
        let profileOutcome : Option Json × M365State × List (String × String) × Nat :=
          match inner.result with
          | .error _ => (none, inner.state, inner.writes, inner.requests)
          | .ok _ =>
            if profileResp.status ≥ 400 then
              (none, inner.state, inner.writes, inner.requests + 1)
            else (profileResp.body, inner.state, inner.writes, inner.requests + 1)
        let userInfo := match profileOutcome.1 with
          | some p =>
            let nm := (p.getD "displayName" (Json.str "Unknown")).toPyStr
            let em := (p.getD "mail" (p.getD "userPrincipalName" (Json.str "Unknown"))).toPyStr
            "\n**User:** " ++ nm ++ " (" ++ em ++ ")"
          | none => ""
        let out :=
          if saved then
            "Connected to Microsoft 365!" ++ userInfo ++
            "\n\nRefresh token saved to Secret Manager. Email, Calendar, OneDrive, and Teams are now accessible."
          else
            "Connected to Microsoft 365 for this session!" ++ userInfo ++
            "\n\nTo persist, save M365_REFRESH_TOKEN to Secret Manager:\n```bash\necho -n \"" ++
            refreshTok ++ "\" | gcloud secrets versions add M365_REFRESH_TOKEN --data-file=- --project=crowdmcp\n```"
        ⟨out, profileOutcome.2.1, writes1 ++ profileOutcome.2.2.1, 1 + profileOutcome.2.2.2⟩

/- ===================================================================
   src/aws_tools.py — AWSConfig
   =================================================================== -/

/-- The credential fields of `AWSConfig` (src/aws_tools.py 53-70), after
`_load_credentials` has resolved them. -/
structure AwsCfg where
  accessKeyId : String
  secretAccessKey : String
  region : String
  roleArnNonprod : String
  roleArnAdmin : String
  deriving DecidableEq, Repr

/-- A `boto3.Session`, identified by its constructor arguments
(`aws_session_token` is `none` for the base-credential session). -/
structure Session where
  accessKeyId : String
  secretAccessKey : String
  sessionToken : Option String
  region : String
  deriving DecidableEq, Repr

/-- One entry of `AWSConfig._session_cache` (src/aws_tools.py 58-59):
the cached session and its expiry instant (seconds; timezone
normalisation of line 127-128 is a no-op on integer timestamps). -/
structure CachedSession where
  session : Session
  expiry : Int
  deriving DecidableEq, Repr

/-- The temporary credentials an STS `assume_role` call returns
(src/aws_tools.py 93-102). -/
structure StsCreds where
  accessKeyId : String
  secretAccessKey : String
  sessionToken : String
  expiration : Int
  deriving DecidableEq, Repr

/-- Python `str.lower()` (ASCII case folding suffices for the account
aliases this code handles). -/
def pyLower (s : String) : String := ⟨s.data.map Char.toLower⟩

/-- Python `str.upper()` (ASCII, used for the `AWS_ROLE_ARN_...` name in
the error message). -/
def pyUpper (s : String) : String := ⟨s.data.map Char.toUpper⟩

/-- Python `str.strip()`: remove leading and trailing whitespace. -/
def pyStrip (s : String) : String :=
  ⟨((s.data.dropWhile Char.isWhitespace).reverse.dropWhile Char.isWhitespace).reverse⟩

/-- `AWSConfig._get_role_arn` (src/aws_tools.py 85-91): the configured
ARN string (possibly empty) for `nonprod`/`admin`, `none` otherwise. -/
def AwsCfg.getRoleArn (cfg : AwsCfg) (account : String) : Option String :=
  if account = "nonprod" then some cfg.roleArnNonprod
  else if account = "admin" then some cfg.roleArnAdmin
  else none

/-- Result of `AWSConfig.get_session`: the session or the propagated
exception, the cache entry written (if any), and the number of STS
`assume_role` calls issued. -/
structure AwsSessionResult where
  result : Except String Session
  cacheUpdate : Option (String × CachedSession)
  stsCalls : Nat

/-- The assume-role path of `AWSConfig.get_session` (src/aws_tools.py
131-150): look up the role ARN, fail with `ValueError` when it is
empty, else assume the role (one STS call), build the session and cache
it with the credential expiration. -/
def awsAssumePath (cfg : AwsCfg) (account : String) (stsCreds : StsCreds) :
    AwsSessionResult :=
  let roleArn := (cfg.getRoleArn account).getD ""
  if roleArn = "" then
    ⟨.error ("No role ARN configured for account \x27" ++ account ++
      "\x27. Set AWS_ROLE_ARN_" ++ pyUpper account ++ " environment variable."),
      none, 0⟩
  else
    let session : Session :=
      ⟨stsCreds.accessKeyId, stsCreds.secretAccessKey, some stsCreds.sessionToken, cfg.region⟩
    ⟨.ok session, some (account, ⟨session, stsCreds.expiration⟩), 1⟩

/-- `AWSConfig.get_session` (src/aws_tools.py 104-150).  `cache` is
`self._session_cache`; `stsCreds` is what an `assume_role` call would
return; `account0` the raw argument (normalised with
`(account or "prod").lower().strip()`). -/
def get_session (cfg : AwsCfg) (cache : String → Option CachedSession)
    (now : Int) (stsCreds : StsCreds) (account0 : String) : AwsSessionResult :=
  let account := pyStrip (pyLower (if account0 = "" then "prod" else account0))
  if ¬ (account = "prod" ∨ account = "nonprod" ∨ account = "admin") then
    ⟨.error ("Unknown account \x27" ++ account ++ "\x27. Use: prod, nonprod, admin"),
      none, 0⟩
  else if account = "prod" then
    ⟨.ok ⟨cfg.accessKeyId, cfg.secretAccessKey, none, cfg.region⟩, none, 0⟩
  else
    match cache account with
    | some c =>
      if now < c.expiry - 300 then ⟨.ok c.session, none, 0⟩
      else awsAssumePath cfg account stsCreds
    | none => awsAssumePath cfg account stsCreds

/- ===================================================================
   Theorems
   =================================================================== -/

/-- Whether the seven characters `Bearer ` occur as a substring. -/
def containsBearerSub : List Char → Bool
  | 'B' :: 'e' :: 'a' :: 'r' :: 'e' :: 'r' :: ' ' :: _ => true
  | _ :: cs => containsBearerSub cs
  | [] => false

/-- String-level wrapper for `containsBearerSub`. -/
def containsBearerStr (s : String) : Bool := containsBearerSub s.data

theorem removeBearer_cons_eq (c : Char) (cs : List Char)
    (h1 : ∀ rest : List Char,
      c = 'B' → cs = 'e' :: 'a' :: 'r' :: 'e' :: 'r' :: ' ' :: rest → False) :
    removeBearer (c :: cs) = c :: removeBearer cs := by
  rw [removeBearer.eq_def]
  split
  · next rest heq =>
    rw [List.cons.injEq] at heq
    exact (h1 rest heq.1 heq.2).elim
  · next c2 cs2 h2 heq =>
    rw [List.cons.injEq] at heq
    rw [heq.1, heq.2]
  · next heq => simp at heq

theorem containsBearerSub_cons_eq (c : Char) (cs : List Char)
    (h1 : ∀ rest : List Char,
      c = 'B' → cs = 'e' :: 'a' :: 'r' :: 'e' :: 'r' :: ' ' :: rest → False) :
    containsBearerSub (c :: cs) = containsBearerSub cs := by
  rw [containsBearerSub.eq_def]
  split
  · next rest heq =>
    rw [List.cons.injEq] at heq
    exact (h1 rest heq.1 heq.2).elim
  · next c2 cs2 h2 heq =>
    rw [List.cons.injEq] at heq
    rw [heq.2]
  · next heq => simp at heq

theorem removeBearer_length_le (l : List Char) : (removeBearer l).length ≤ l.length := by
  induction l using removeBearer.induct <;> simp [removeBearer] <;> omega

theorem removeBearer_length_lt (l : List Char) (h : containsBearerSub l = true) :
    (removeBearer l).length < l.length := by
  induction l using removeBearer.induct with
  | case1 rest ih =>
    have hle := removeBearer_length_le rest
    simp [removeBearer]
    omega
  | case2 c cs h1 ih =>
    rw [containsBearerSub_cons_eq c cs h1] at h
    rw [removeBearer_cons_eq c cs h1]
    have := ih h
    simp
    omega
  | case3 => simp [containsBearerSub] at h

theorem removeBearer_eq_of_not_contains (l : List Char) (h : containsBearerSub l = false) :
    removeBearer l = l := by
  induction l using removeBearer.induct with
  | case1 rest ih => simp [containsBearerSub] at h
  | case2 c cs h1 ih =>
    rw [containsBearerSub_cons_eq c cs h1] at h
    rw [removeBearer_cons_eq c cs h1, ih h]
  | case3 => rfl

/-- **C5** (confirmed): for every incoming HTTP request, the access-gate
middleware forwards the request unconditionally when the path is in the
fixed allow-list; forwards all requests when no API key is configured
(`None` or empty); and otherwise returns 401 exactly when the presented
key — taken from the `api_key` query parameter, the `X-API-Key` header,
or the `Authorization` bearer header, checked in that priority order
(conjuncts 4-6) — does not match the configured key. -/
theorem apiKeyMiddleware_gate_spec (apiKey : Option String) (req : Request) :
    (req.path ∈ PUBLIC_PATHS → dispatch apiKey req = .forward)
    ∧ (pyTruthy apiKey = false → dispatch apiKey req = .forward)
    ∧ (∀ k : String, apiKey = some k → k ≠ "" →
        (dispatch apiKey req = .unauthorized ↔
          req.path ∉ PUBLIC_PATHS ∧ providedKey req ≠ k))
    ∧ (∀ q : String, req.queryApiKey = some q → q ≠ "" → providedKey req = q)
    ∧ (∀ x : String, pyTruthy req.queryApiKey = false → req.headerApiKey = some x →
        x ≠ "" → providedKey req = x)
    ∧ (pyTruthy req.queryApiKey = false → pyTruthy req.headerApiKey = false →
        providedKey req = removeBearerStr (pyOrEmpty req.authorization)) := by
  refine ⟨?_, ?_, ?_, ?_, ?_, ?_⟩
  · intro h
    simp [dispatch, h]
  · intro h
    simp [dispatch, h]
  · rintro k rfl hk
    by_cases hp : req.path ∈ PUBLIC_PATHS
    · simp [dispatch, hp]
    · have ht : pyTruthy (some k) = true := by simp [pyTruthy, hk]
      by_cases hm : providedKey req = k
      · simp [dispatch, hp, ht, pyOrEmpty, hm]
      · simp [dispatch, hp, ht, pyOrEmpty, hm]
  · intro q hq hqne
    simp [providedKey, hq, pyTruthy, hqne, pyOrEmpty]
  · intro x hq hx hxne
    have htx : pyTruthy (some x) = true := by simp [pyTruthy, hxne]
    simp [providedKey, hq, hx, htx, pyOrEmpty]
  · intro hq hh
    simp [providedKey, hq, hh]

/-- Witness for `apiKeyMiddleware_gate_spec`: with key `secret` configured,
a request to `/mcp` presenting the wrong key is answered 401. -/
theorem apiKeyMiddleware_gate_spec_witness :
    dispatch (some "secret") ⟨"/mcp", none, none, some "wrong"⟩ = .unauthorized :=
  ((apiKeyMiddleware_gate_spec (some "secret")
    ⟨"/mcp", none, none, some "wrong"⟩).2.2.1 "secret" rfl (by decide)).mpr
    ⟨by decide, by decide⟩

/-- **C10** (counterexample): the claim says a configured key containing
`Bearer ` can never be matched via the `Authorization` header.  False:
Python `str.replace` scans the original string once, so the header value
`BeaBearer rer X` strips to `Bearer X` and matches the configured key
`Bearer X`, and the request is forwarded. -/
theorem bearer_removal_counterexample :
    removeBearerStr "BeaBearer rer X" = "Bearer X"
    ∧ dispatch (some "Bearer X") ⟨"/mcp", none, none, some "BeaBearer rer X"⟩
      = .forward := by
  constructor <;> decide

/-- **C10** (amended): the key comparison removes the occurrences of
`Bearer ` found in one left-to-right scan of the `Authorization` header
(`removeBearer`); a request presenting a configured key that does not
contain `Bearer ` bare in that header (no `Bearer ` in front) is accepted;
and a configured key that does contain `Bearer ` is never matched by
presenting it verbatim in that header — though, per
`bearer_removal_counterexample`, other header values can still match it. -/
theorem bearer_removal_amended (k path : String) (hk : k ≠ "")
    (hp : path ∉ PUBLIC_PATHS) :
    (containsBearerStr k = false →
      dispatch (some k) ⟨path, none, none, some k⟩ = .forward)
    ∧ (containsBearerStr k = true →
      dispatch (some k) ⟨path, none, none, some k⟩ = .unauthorized) := by
  have ht : pyTruthy (some k) = true := by simp [pyTruthy, hk]
  constructor
  · intro h
    have he : removeBearerStr k = k := by
      unfold removeBearerStr
      rw [removeBearer_eq_of_not_contains _ h]
    simp [dispatch, hp, ht, providedKey, pyTruthy, pyOrEmpty, he]
  · intro h
    have hne : removeBearerStr k ≠ k := by
      intro he
      have hlt := removeBearer_length_lt k.data h
      have hd : removeBearer k.data = k.data := congrArg String.data he
      rw [hd] at hlt
      omega
    simp [dispatch, hp, ht, providedKey, pyTruthy, pyOrEmpty, hne, hk]

/-- Witness for `bearer_removal_amended`: the configured key `Bearer X`
presented verbatim in the `Authorization` header is rejected. -/
theorem bearer_removal_amended_witness :
    dispatch (some "Bearer X") ⟨"/mcp", none, none, some "Bearer X"⟩
      = .unauthorized :=
  (bearer_removal_amended "Bearer X" "/mcp" (by decide) (by decide)).2 (by decide)

/-- **C2** (counterexample): the claim says resolution checks the explicit
environment variable first and calls the external secret-management
service only if the environment variable is empty or unset.  False for
the cited resolvers: with the environment variable set (`envtok`) and the
secret store holding `storetok`, `DigitalOceanConfig.token` and
`LinearConfig.api_key` both call the store (flag `true`) and return the
store value, ignoring the environment. -/
theorem secret_resolution_order_counterexample :
    digitalOceanToken none (some "storetok") (some "envtok") = ⟨"storetok", true⟩
    ∧ linearApiKey none (some "storetok") (some "envtok") = ⟨"storetok", true⟩ := by
  constructor <;> rfl

/-- **C2** (amended): only the AWS credential loader checks the
environment variable first, calling the external secret store only when
the environment value is empty or unset; the DigitalOcean, Linear and
Email resolvers call the external secret store first on every cache miss
and use the environment variable only when the store lookup fails or
returns an empty value (a truthy cached value short-circuits both). -/
theorem secret_resolution_order_amended (cached store env : Option String)
    (e s dflt : String) :
    (e ≠ "" → awsResolve (some e) store dflt = ⟨e, false⟩)
    ∧ (pyTruthy cached = false → s ≠ "" →
        secretFirstResolve cached (some s) env = ⟨s, true⟩)
    ∧ (pyTruthy cached = false → pyTruthy store = false →
        secretFirstResolve cached store env = ⟨pyOrEmpty env, true⟩)
    ∧ (pyTruthy cached = true →
        secretFirstResolve cached store env = ⟨pyOrEmpty cached, false⟩) := by
  refine ⟨?_, ?_, ?_, ?_⟩
  · intro he
    have h1 : pyTruthy (some e) = true := by simp [pyTruthy, he]
    simp [awsResolve, pyOrEmpty, h1]
  · intro hc hs
    have hts : pyTruthy (some s) = true := by simp [pyTruthy, hs]
    simp [secretFirstResolve, hc, hts, pyOrEmpty]
  · intro hc hs
    simp [secretFirstResolve, hc, hs]
  · intro hc
    simp [secretFirstResolve, hc]

/-- Witness for `secret_resolution_order_amended`: AWS returns the
environment value without a store call; the shared secret-first resolver
returns the store value with a store call. -/
theorem secret_resolution_order_amended_witness :
    awsResolve (some "envval") (some "storeval") "" = ⟨"envval", false⟩
    ∧ secretFirstResolve none (some "storeval") (some "envval")
      = ⟨"storeval", true⟩ :=
  ⟨(secret_resolution_order_amended none (some "storeval") (some "envval")
      "envval" "storeval" "").1 (by decide),
   (secret_resolution_order_amended none (some "storeval") (some "envval")
      "envval" "storeval" "").2.1 rfl (by decide)⟩

/-- **C4** (confirmed): in `do_request`, an HTTP 429 response triggers up
to two retries, each preceded by a sleep of
`min(server-suggested delay, 30)` seconds (the suggested delay defaults
to 5 when the `Retry-After` header is absent); after 429 twice and then a
success status the call succeeds on the third attempt having issued three
requests; and a third consecutive 429 raises the rate-limit-specific
error instead. -/
theorem do_request_rate_limit_retry (r1 r2 r3 : DoResponse)
    (rest : List DoResponse) (h1 : r1.status = 429) (h2 : r2.status = 429) :
    (∀ b : Json, r3.status < 400 → r3.status ≠ 204 → r3.body = some b →
      do_request (r1 :: r2 :: r3 :: rest) =
        ⟨.ok b, [min (r1.retryAfter.getD 5) 30, min (r2.retryAfter.getD 5) 30], 3⟩)
    ∧ (r3.status = 429 →
      do_request (r1 :: r2 :: r3 :: rest) =
        ⟨.error ("Rate limited by DigitalOcean API. Retry after "
            ++ toString (r3.retryAfter.getD 5) ++ "s."),
          [min (r1.retryAfter.getD 5) 30, min (r2.retryAfter.getD 5) 30], 3⟩) := by
  constructor
  · intro b h3a h3b h3c
    have hne429 : ¬ r3.status = 429 := by omega
    have h400 : ¬ r3.status ≥ 400 := by omega
    simp [do_request, doRequestAux, h1, h2, hne429, h400, h3b, h3c]
  · intro h3
    simp [do_request, doRequestAux, h1, h2, h3]

/-- Witness for `do_request_rate_limit_retry`: 429 (retry after 10), 429
(retry after 99, capped to 30), then 200 — success on the third request
with sleeps 10 and 30. -/
theorem do_request_rate_limit_retry_witness :
    do_request [⟨429, some 10, none, ""⟩, ⟨429, some 99, none, ""⟩,
        ⟨200, none, some (Json.obj []), ""⟩] =
      ⟨.ok (Json.obj []), [10, 30], 3⟩ :=
  (do_request_rate_limit_retry ⟨429, some 10, none, ""⟩ ⟨429, some 99, none, ""⟩
    ⟨200, none, some (Json.obj []), ""⟩ [] rfl rfl).1 (Json.obj [])
    (by decide) (by decide) rfl

theorem doPaginatedAux_bound (oracle : Nat → Json) (resultKey : String)
    (perPage : Nat)
    (h : ∀ p, ((oracle p).getD resultKey (Json.arr [])).asArr.length ≤ perPage) :
    ∀ (fuel page : Nat) (acc : List Json),
      (doPaginatedAux oracle resultKey fuel page acc).2 ≤ fuel ∧
      (doPaginatedAux oracle resultKey fuel page acc).1.length
        ≤ acc.length + fuel * perPage := by
  intro fuel
  induction fuel with
  | zero =>
    intro page acc
    simp [doPaginatedAux]
  | succ k ih =>
    intro page acc
    simp only [doPaginatedAux]
    split
    · refine ⟨by omega, ?_⟩
      have hi := h page
      rw [List.length_append, Nat.succ_mul]
      generalize k * perPage = K
      omega
    · dsimp only
      have IH := ih (page + 1)
        (acc ++ ((oracle page).getD resultKey (Json.arr [])).asArr)
      refine ⟨?_, ?_⟩
      · have := IH.1
        simpa using Nat.succ_le_succ this
      · have h2 := IH.2
        have hi := h page
        rw [List.length_append] at h2
        rw [Nat.succ_mul]
        generalize hK : k * perPage = K at h2 ⊢
        omega

/-- **C9** (confirmed): `do_paginated_request` terminates after issuing at
most `maxPages` GET requests (the source defaults are `per_page = 100`,
`max_pages = 10`), even when every response reports a next page, and —
when each page holds at most `perPage` items, as a server honouring
`per_page` does — returns at most `maxPages * perPage` items.  Each
counted request is one `do_request` invocation. -/
theorem do_paginated_request_bounded (oracle : Nat → Json) (resultKey : String)
    (perPage maxPages : Nat)
    (h : ∀ p, ((oracle p).getD resultKey (Json.arr [])).asArr.length ≤ perPage) :
    (do_paginated_request oracle resultKey perPage maxPages).2 ≤ maxPages
    ∧ (do_paginated_request oracle resultKey perPage maxPages).1.length
        ≤ maxPages * perPage := by
  have := doPaginatedAux_bound oracle resultKey perPage h maxPages 1 []
  simpa [do_paginated_request] using this

/-- Witness for `do_paginated_request_bounded`: an API that always reports
a next page and a huge total still yields at most 10 requests and
10 items at `per_page = 1`, `max_pages = 10`. -/
theorem do_paginated_request_bounded_witness :
    (do_paginated_request (fun _ => Json.obj [("droplets", Json.arr [Json.null]),
        ("links", Json.obj [("pages", Json.obj [("next", Json.str "u")])]),
        ("meta", Json.obj [("total", Json.num 1000)])]) "droplets" 1 10).2 ≤ 10
    ∧ (do_paginated_request (fun _ => Json.obj [("droplets", Json.arr [Json.null]),
        ("links", Json.obj [("pages", Json.obj [("next", Json.str "u")])]),
        ("meta", Json.obj [("total", Json.num 1000)])]) "droplets" 1 10).1.length
        ≤ 10 * 1 :=
  do_paginated_request_bounded _ "droplets" 1 10 (fun _ => by decide)

/-- **C1** (counterexample): the claim says every tool converts exceptions
at its boundary into an `Error: ...` string return value and never
propagates an exception to the MCP transport layer.  False: the
`halopsa_get_clients` tool catches exceptions only to re-raise them
wrapped in `Exception("Failed to fetch HaloPSA clients: ...")` — here the
token endpoint answers 500 and the wrapped exception propagates instead
of becoming a string return. -/
theorem halopsa_tool_raises_counterexample :
    (halopsa_get_clients ⟨none, none⟩ 0 ⟨500, none, ""⟩
      ⟨200, some (Json.obj []), ""⟩).result
      = .error "Failed to fetch HaloPSA clients: HTTP status error 500" := rfl

/-- **C1** (amended): tools registered in the dedicated vendor modules
(modelled here by `digitalocean_list_droplets` and `linear_get_viewer`)
catch every exception at the tool boundary and return an error string;
the tools defined in `src/server.py` (modelled by `halopsa_get_clients`)
instead re-raise a wrapped `Failed to ...` exception, which propagates to
the MCP transport layer. -/
theorem tool_error_boundary_amended (token apiKey tagName : String)
    (responses : List DoResponse) (resp : HttpReply) (perPage page : Int)
    (st : TokenState) (now : Int) (tokenResp apiResp : HttpReply) :
    (∀ e : String, token ≠ "" → (do_request responses).result = .error e →
      (digitalocean_list_droplets token responses tagName perPage page).output
        = "Error listing droplets: " ++ e)
    ∧ (∀ e : String, apiKey ≠ "" → graphql_request resp = .error e →
      (linear_get_viewer apiKey resp).output = "Error getting Linear viewer: " ++ e)
    ∧ (∀ e : String, (haloRequest st now tokenResp apiResp).result = .error e →
      (halopsa_get_clients st now tokenResp apiResp).result
        = .error ("Failed to fetch HaloPSA clients: " ++ e)) := by
  refine ⟨?_, ?_, ?_⟩
  · intro e htok he
    simp [digitalocean_list_droplets, htok, he]
  · intro e hkey he
    simp [linear_get_viewer, hkey, he]
  · intro e he
    simp [halopsa_get_clients, he]

/-- Witness for `tool_error_boundary_amended`: a 500 from the droplets
endpoint becomes the `Error listing droplets: ...` string return. -/
theorem tool_error_boundary_amended_witness :
    (digitalocean_list_droplets "tok" [⟨500, none, none, "boom"⟩] "" 50 1).output
      = "Error listing droplets: HTTP status error 500" :=
  (tool_error_boundary_amended "tok" "k" "" [⟨500, none, none, "boom"⟩]
    ⟨200, some (Json.obj []), ""⟩ 50 1 ⟨none, none⟩ 0 ⟨200, some (Json.obj []), ""⟩
    ⟨200, some (Json.obj []), ""⟩).1 "HTTP status error 500" (by decide) rfl

theorem haloRefresh_requests (st : TokenState) (now : Int) (resp : HttpReply) :
    (haloRefresh st now resp).requests = 1 := by
  unfold haloRefresh
  repeat' split
  all_goals rfl

theorem haloGetAccessToken_requests_of_no_token (st : TokenState) (now : Int)
    (resp : HttpReply) (h : st.accessToken = none) :
    (haloGetAccessToken st now resp).requests = 1 := by
  obtain ⟨a, x⟩ := st
  subst h
  cases x <;> simp [haloGetAccessToken, haloRefresh_requests]

theorem haloRequest_requests_ge (st : TokenState) (now : Int)
    (tokenResp apiResp : HttpReply) (h : st.accessToken = none) :
    1 ≤ (haloRequest st now tokenResp apiResp).requests := by
  have h1 := haloGetAccessToken_requests_of_no_token st now tokenResp h
  unfold haloRequest
  dsimp only
  split
  · dsimp only
    omega
  · split
    · dsimp only
      omega
    · split <;> dsimp only <;> omega

theorem halopsa_get_clients_requests (st : TokenState) (now : Int)
    (tokenResp apiResp : HttpReply) :
    (halopsa_get_clients st now tokenResp apiResp).requests
      = (haloRequest st now tokenResp apiResp).requests := by
  unfold halopsa_get_clients
  dsimp only
  split <;> rfl

/-- **C3** (counterexample): the claim says any tool of a vendor whose
`is_configured` is false returns a `not configured` / `Error:` string and
issues no network request.  False: with client credentials present but no
refresh token, `Microsoft365Config.is_configured` is false, yet
`m365_auth_complete` performs the authorization-code exchange over the
network (two requests here: token endpoint plus profile lookup). -/
theorem unconfigured_network_call_counterexample :
    M365Cfg.isConfigured ⟨"cid", "sec", "tid", ""⟩ = false
    ∧ (m365_auth_complete ⟨"cid", "sec", "tid", ""⟩ 0 true
        ⟨200, some (Json.obj [("access_token", Json.str "at"),
          ("refresh_token", Json.str "rt"), ("expires_in", Json.num 3600)]), ""⟩
        ⟨200, some (Json.obj []), ""⟩
        ⟨200, some (Json.obj [("displayName", Json.str "A"),
          ("mail", Json.str "a@b.c")]), ""⟩).requests = 2 := by
  constructor <;> rfl

/-- **C3** (amended): the guarded tools of the vendors that define
`is_configured` (modelled by `digitalocean_list_droplets` and
`linear_get_viewer`) return the vendor's `not configured` error string
with no network request when unconfigured; the two Microsoft 365
auth-bootstrap tools guard only on client credentials — when those are
missing they return an error string with no request, but with client
credentials present they issue the token exchange even though
`is_configured` is false (`unconfigured_network_call_counterexample`);
and the HaloPSA tools in `src/server.py` perform no configuration check
at all — with no cached token they issue the token request regardless. -/
theorem unconfigured_guard_amended (responses : List DoResponse)
    (resp : HttpReply) (tagName : String) (perPage page : Int)
    (cfg : M365Cfg) (now : Int) (ok : Bool) (t i p : HttpReply)
    (st : TokenState) (now2 : Int) (tokR apiR : HttpReply) :
    (digitalocean_list_droplets "" responses tagName perPage page
      = ⟨"Error: DigitalOcean not configured. Set DIGITALOCEAN_TOKEN.", 0⟩)
    ∧ (linear_get_viewer "" resp
      = ⟨"Error: Linear not configured. Set LINEAR_API_KEY.", 0⟩)
    ∧ (cfg.clientId = "" →
      m365_auth_complete cfg now ok t i p
        = ⟨"Error: M365 credentials not configured.",
            ⟨cfg.refreshToken, none, none⟩, [], 0⟩)
    ∧ (st.accessToken = none →
      1 ≤ (halopsa_get_clients st now2 tokR apiR).requests) := by
  refine ⟨?_, ?_, ?_, ?_⟩
  · simp [digitalocean_list_droplets]
  · simp [linear_get_viewer]
  · intro h
    simp [m365_auth_complete, h]
  · intro h
    rw [halopsa_get_clients_requests]
    exact haloRequest_requests_ge st now2 tokR apiR h

/-- Witness for `unconfigured_guard_amended`: with an empty client id,
`m365_auth_complete` returns the error string without any request. -/
theorem unconfigured_guard_amended_witness :
    m365_auth_complete ⟨"", "sec", "tid", "rt"⟩ 0 true ⟨200, none, ""⟩
      ⟨200, none, ""⟩ ⟨200, none, ""⟩
      = ⟨"Error: M365 credentials not configured.", ⟨"rt", none, none⟩, [], 0⟩ :=
  (unconfigured_guard_amended [] ⟨200, none, ""⟩ "" 50 1 ⟨"", "sec", "tid", "rt"⟩ 0
    true ⟨200, none, ""⟩ ⟨200, none, ""⟩ ⟨200, none, ""⟩ ⟨none, none⟩ 0
    ⟨200, none, ""⟩ ⟨200, none, ""⟩).2.2.1 rfl

/-- **C6** (confirmed): for the token-based credential managers
(`EmailConfig.get_access_token`, `HaloPSAClient.get_access_token`), while
a cached token exists and the current time is before the stored expiry,
the cached token is returned unchanged, the cached state is not modified
and no token-endpoint request is issued; and on the refresh path the
stored expiry is computed as the refresh time plus the server-declared
TTL minus a 60-second margin (the email manager defaults the TTL to
3600 when the response omits it). -/
theorem cached_token_frame_spec (st : TokenState) (now : Int) (resp : HttpReply)
    (tok : String) (e : Int) (hTok : st.accessToken = some tok) (hNe : tok ≠ "")
    (hExp : st.tokenExpires = some e) (hNow : now < e) :
    emailGetAccessToken st now resp = ⟨.ok tok, st, 0⟩
    ∧ haloGetAccessToken st now resp = ⟨.ok tok, st, 0⟩
    ∧ (∀ (st2 : TokenState) (data : Json), resp.status < 400 → resp.body = some data →
      data.hasKey "access_token" = true → data.hasKey "expires_in" = true →
      (haloRefresh st2 now resp).state.tokenExpires
        = some (now + ((data.getD "expires_in" Json.null).asInt - 60)))
    ∧ (∀ (st2 : TokenState) (data : Json), resp.status < 400 → resp.body = some data →
      data.hasKey "access_token" = true →
      (emailRefresh st2 now resp).state.tokenExpires
        = some (now + ((data.getD "expires_in" (Json.num 3600)).asInt - 60))) := by
  obtain ⟨a, x⟩ := st
  subst hTok
  subst hExp
  refine ⟨?_, ?_, ?_, ?_⟩
  · simp [emailGetAccessToken, hNe, hNow]
  · simp [haloGetAccessToken, hNe, hNow]
  · intro st2 data hst hbody hk1 hk2
    obtain ⟨status, body, text⟩ := resp
    subst hbody
    have h400 : ¬ status ≥ 400 := by simp at hst; omega
    simp [haloRefresh, h400, hk1, hk2]
  · intro st2 data hst hbody hk1
    obtain ⟨status, body, text⟩ := resp
    subst hbody
    have h400 : ¬ status ≥ 400 := by simp at hst; omega
    simp [emailRefresh, h400, hk1]

/-- Witness for `cached_token_frame_spec`: a cached email token with
expiry 100 at time 50 is returned unchanged with zero requests. -/
theorem cached_token_frame_spec_witness :
    emailGetAccessToken ⟨some "tok", some 100⟩ 50 ⟨200, some (Json.obj []), ""⟩
      = ⟨.ok "tok", ⟨some "tok", some 100⟩, 0⟩ :=
  (cached_token_frame_spec ⟨some "tok", some 100⟩ 50 ⟨200, some (Json.obj []), ""⟩
    "tok" 100 rfl (by decide) rfl (by decide)).1

/-- **C8** (confirmed): for a Microsoft Graph token-refresh response, if
it carries a `refresh_token` different from the cached one, the new
refresh token replaces the cached one and exactly one secret-store write
of it is issued; if the carried refresh token equals the cached one, or
is absent, no secret-store write occurs; and a cache-valid call performs
no refresh and no write at all. -/
theorem m365_refresh_rotation_spec (st : M365State) (now : Int) (resp : HttpReply)
    (data : Json) (hOk : resp.status < 400) (hBody : resp.body = some data)
    (hTok : data.hasKey "access_token" = true) :
    (∀ rt : String, data.hasKey "refresh_token" = true →
      data.getD "refresh_token" Json.null = Json.str rt → rt ≠ st.refreshToken →
      (m365Refresh st now resp).state.refreshToken = rt
      ∧ (m365Refresh st now resp).writes = [("M365_REFRESH_TOKEN", rt)])
    ∧ (∀ rt : String, data.hasKey "refresh_token" = true →
      data.getD "refresh_token" Json.null = Json.str rt → rt = st.refreshToken →
      (m365Refresh st now resp).state.refreshToken = st.refreshToken
      ∧ (m365Refresh st now resp).writes = [])
    ∧ (data.hasKey "refresh_token" = false →
      (m365Refresh st now resp).state.refreshToken = st.refreshToken
      ∧ (m365Refresh st now resp).writes = [])
    ∧ (∀ (tok : String) (e : Int), st.accessToken = some tok → tok ≠ "" →
      st.tokenExpiry = some e → now < e →
      m365GetAccessToken st now resp = ⟨.ok tok, st, [], 0⟩) := by
  obtain ⟨status, body, text⟩ := resp
  subst hBody
  have h400 : ¬ status ≥ 400 := by simp at hOk; omega
  refine ⟨?_, ?_, ?_, ?_⟩
  · intro rt hk hget hne
    constructor <;> simp [m365Refresh, h400, hTok, hk, hget, Json.toPyStr, hne]
  · intro rt hk hget heq
    constructor <;> simp [m365Refresh, h400, hTok, hk, hget, Json.toPyStr, heq]
  · intro hk
    constructor <;> simp [m365Refresh, h400, hTok, hk]
  · intro tok e hTok2 hNe hExp hNow
    obtain ⟨r, a, x⟩ := st
    subst hTok2
    subst hExp
    simp [m365GetAccessToken, hNe, hNow]

/-- Witness for `m365_refresh_rotation_spec`: a refresh response rotating
`old` to `new` writes the new refresh token to the secret store. -/
theorem m365_refresh_rotation_spec_witness :
    (m365Refresh ⟨"old", none, none⟩ 0
      ⟨200, some (Json.obj [("access_token", Json.str "at"),
        ("refresh_token", Json.str "new"), ("expires_in", Json.num 3600)]), ""⟩).writes
      = [("M365_REFRESH_TOKEN", "new")] :=
  ((m365_refresh_rotation_spec ⟨"old", none, none⟩ 0
    ⟨200, some (Json.obj [("access_token", Json.str "at"),
      ("refresh_token", Json.str "new"), ("expires_in", Json.num 3600)]), ""⟩
    (Json.obj [("access_token", Json.str "at"), ("refresh_token", Json.str "new"),
      ("expires_in", Json.num 3600)]) (by decide) rfl rfl).1 "new" rfl rfl
    (by decide)).2

/-- **C7** (confirmed): requesting an AWS session for account `nonprod`
(or `admin`) while the corresponding role ARN is empty fails with the
descriptive `No role ARN configured` error and issues no STS call (given
no fresh cache entry for that account — the cache is consulted before
the ARN check, and an entry can only exist after a prior successful
assumption); and a cached assumed-role session more than five minutes
(300 s) before expiry is returned as-is, with no STS call and no cache
write. -/
theorem aws_session_spec (cfg : AwsCfg) (cache : String → Option CachedSession)
    (now : Int) (creds : StsCreds) :
    (cfg.roleArnNonprod = "" →
      (∀ c : CachedSession, cache "nonprod" = some c → ¬ now < c.expiry - 300) →
      get_session cfg cache now creds "nonprod"
        = ⟨.error ("No role ARN configured for account \x27nonprod\x27. " ++
            "Set AWS_ROLE_ARN_NONPROD environment variable."), none, 0⟩)
    ∧ (cfg.roleArnAdmin = "" →
      (∀ c : CachedSession, cache "admin" = some c → ¬ now < c.expiry - 300) →
      get_session cfg cache now creds "admin"
        = ⟨.error ("No role ARN configured for account \x27admin\x27. " ++
            "Set AWS_ROLE_ARN_ADMIN environment variable."), none, 0⟩)
    ∧ (∀ c : CachedSession, cache "nonprod" = some c → now < c.expiry - 300 →
      get_session cfg cache now creds "nonprod" = ⟨.ok c.session, none, 0⟩)
    ∧ (∀ c : CachedSession, cache "admin" = some c → now < c.expiry - 300 →
      get_session cfg cache now creds "admin" = ⟨.ok c.session, none, 0⟩) := by
  have hacct1 : pyStrip (pyLower "nonprod") = "nonprod" := by decide
  have hacct2 : pyStrip (pyLower "admin") = "admin" := by decide
  have hup1 : pyUpper "nonprod" = "NONPROD" := by decide
  have hup2 : pyUpper "admin" = "ADMIN" := by decide
  refine ⟨?_, ?_, ?_, ?_⟩
  · intro hArn hMiss
    rcases hc : cache "nonprod" with _ | c
    · simp [get_session, hacct1, hc, awsAssumePath, AwsCfg.getRoleArn, hArn, hup1]
    · have hni := hMiss c hc
      simp [get_session, hacct1, hc, hni, awsAssumePath, AwsCfg.getRoleArn, hArn, hup1]
  · intro hArn hMiss
    rcases hc : cache "admin" with _ | c
    · simp [get_session, hacct2, hc, awsAssumePath, AwsCfg.getRoleArn, hArn, hup2]
    · have hni := hMiss c hc
      simp [get_session, hacct2, hc, hni, awsAssumePath, AwsCfg.getRoleArn, hArn, hup2]
  · intro c hc hfresh
    simp [get_session, hacct1, hc, hfresh]
  · intro c hc hfresh
    simp [get_session, hacct2, hc, hfresh]

/-- Witness for `aws_session_spec`: with no `nonprod` role ARN and an
empty cache, the session request fails with the descriptive error and
zero STS calls. -/
theorem aws_session_spec_witness :
    get_session ⟨"ak", "sk", "r", "", "arn"⟩ (fun _ => none) 0 ⟨"a", "s", "t", 99⟩
        "nonprod"
      = ⟨.error ("No role ARN configured for account \x27nonprod\x27. " ++
          "Set AWS_ROLE_ARN_NONPROD environment variable."), none, 0⟩ :=
  (aws_session_spec ⟨"ak", "sk", "r", "", "arn"⟩ (fun _ => none) 0
    ⟨"a", "s", "t", 99⟩).1 rfl (fun c hc => by cases hc)
